import Mathlib

/-!
Shallow embedding of the workflow event monitor
(`monitor-ai-planning.py`, class `AITestMonitor` and `main`).

JSON-like values are modelled by `Json`; Python `dict.get(k, d)` by
`pyGetD` (raising `AttributeError` on a non-dict receiver); Python
truthiness by `Json.truthy` and `a or b` by `pyOr`.  Console output and
the saved artifact are modelled as a list of `Effect`s; exceptions as
`Except PyErr`.  The receive loop of `monitor_websocket` is `runLoop`
over a list of `NetEvent`s (timeouts, connection close, frames that
either parsed or failed to parse).
-/

namespace Riverbanking

/-- JSON-like values as produced by `json.loads`.  Numbers are modelled
as integers (no claim involves fractional values). -/
inductive Json where
  | null
  | bool (b : Bool)
  | num (n : Int)
  | str (s : String)
  | arr (elems : List Json)
  | obj (fields : List (String × Json))

/-- Python exception classes that the monitor can raise. -/
inductive PyErr where
  | attributeError
  | typeError
  | jsonDecodeError
  deriving Repr, DecidableEq

/-- First-match lookup in a dict's field list (JSON objects decoded by
`json.loads` have unique keys). -/
def lookupField : List (String × Json) → String → Option Json
  | [], _ => none
  | (k, v) :: rest, key => if k = key then some v else lookupField rest key

/-- `fields.get(key, dflt)` for a known dict. -/
def objGetD (fields : List (String × Json)) (key : String) (dflt : Json) : Json :=
  (lookupField fields key).getD dflt

/-- `x.get(key, dflt)`: `AttributeError` when `x` is not a dict. -/
def pyGetD : Json → String → Json → Except PyErr Json
  | .obj fields, key, dflt => .ok (objGetD fields key dflt)
  | _, _, _ => .error .attributeError

/-- Python truthiness of a JSON value. -/
def Json.truthy : Json → Bool
  | .null => false
  | .bool b => b
  | .num n => n != 0
  | .str s => s != ""
  | .arr xs => !xs.isEmpty
  | .obj fs => !fs.isEmpty

/-- Python `a or b`. -/
def pyOr (a b : Json) : Json := if a.truthy then a else b

/-- Python `v == "lit"` for a string literal: true only for an equal string. -/
def Json.eqStr : Json → String → Bool
  | .str s, t => s == t
  | _, _ => false

/-- Iterating a value as a list (`for x in v`); non-list iterables are
modelled as a `TypeError` (no claim exercises string/dict iteration). -/
def Json.asList : Json → Except PyErr (List Json)
  | .arr xs => .ok xs
  | _ => .error .typeError

/-- `v.upper()` and similar string-method calls: `AttributeError` when
the receiver is not a string. -/
def Json.asString : Json → Except PyErr String
  | .str s => .ok s
  | _ => .error .attributeError

/-- `s[:n]` character slicing, written over the character list so that
it evaluates by `rfl`/`decide`. -/
def pyTake (n : Nat) (s : String) : String := String.mk (s.data.take n)

/-- `v[:n]` slicing: defined for strings and lists, `TypeError` otherwise. -/
def sliceTake (n : Nat) : Json → Except PyErr Json
  | .str s => .ok (.str (pyTake n s))
  | .arr xs => .ok (.arr (xs.take n))
  | _ => .error .typeError

/-- `severity.upper()`'s uppercase conversion, written over the
character list so that it evaluates by `rfl`/`decide`. -/
def pyUpper (s : String) : String := String.mk (s.data.map Char.toUpper)

/-- `str(v)` as used in f-strings.  Container rendering is abbreviated;
no claim inspects the rendered text of a container. -/
def pyStr : Json → String
  | .null => "None"
  | .bool true => "True"
  | .bool false => "False"
  | .num n => toString n
  | .str s => s
  | .arr _ => "[...]"
  | .obj _ => "dict"

/-- One entry of `self.ai_thoughts` (timestamp, phase, thought). -/
structure ThoughtEntry where
  timestamp : Nat
  phase : Json
  thought : Json

/-- The mutable fields of `AITestMonitor` that events touch. -/
structure MonitorState where
  ai_thoughts : List ThoughtEntry
  test_plan : Option Json
  current_phase : String
  findings : List Json
  start_time : Option Nat

/-- `AITestMonitor.__init__`. -/
def initState : MonitorState :=
  { ai_thoughts := []
    test_plan := none
    current_phase := "Initializing"
    findings := []
    start_time := none }

/-- One row of the test-plan table: (index, tool, truncated target, purpose). -/
structure PlanRow where
  stepNo : Nat
  tool : Json
  target : Json
  purpose : Json

/-- Observable side effects: console renderings and the saved artifact. -/
inductive Effect where
  | thoughtPanel (phase thought : Json)
  | strategyTable (rows : List (Json × String × Json))
  | reasoningPanel (reasoning : Json)
  | classificationPanel (intent : Json) (confidence : Int)
  | planTable (rows : List PlanRow)
  | firstStepPanel (tool purpose priority : Json)
  | phaseLine (text : String)
  | findingPanel (severity : String) (ftype desc impact : Json)
  | summaryPanel (duration : Int) (nThoughts nFindings : Nat) (planGenerated : Bool)
  | saveResults (duration : Int)
  | printError (e : PyErr)
  | printLine (text : String)

/-- `display_ai_thought`: appends to `ai_thoughts`, prints a panel. -/
def display_ai_thought (st : MonitorState) (now : Nat) (phase thought : Json) :
    MonitorState × List Effect :=
  ({ st with ai_thoughts := st.ai_thoughts ++ [⟨now, phase, thought⟩] },
   [.thoughtPanel phase thought])

/-- One row of the strategy table: `(phase, "tool: purpose", priority)`. -/
def strategyRow (phase : Json) (rec : Json) : Except PyErr (Json × String × Json) :=
  match rec with
  | .obj rf =>
      .ok (phase,
           pyStr (objGetD rf "tool" (.str "Unknown")) ++ ": " ++
             pyStr (objGetD rf "purpose" (.str "")),
           objGetD rf "priority" (.str "medium"))
  | _ => .error .attributeError

/-- Row construction for `display_strategy`, first error wins. -/
def strategyRows (phase : Json) : List Json → Except PyErr (List (Json × String × Json))
  | [] => .ok []
  | r :: rest =>
      match strategyRow phase r with
      | .error e => .error e
      | .ok row =>
          match strategyRows phase rest with
          | .error e => .error e
          | .ok rows => .ok (row :: rows)

/-- `display_strategy`. -/
def display_strategy (msg : Json) : Except PyErr (List Effect) :=
  match pyGetD msg "strategy" (.obj []), pyGetD msg "reasoning" (.str "No reasoning provided") with
  | .ok strategy, .ok reasoning =>
      match strategy with
      | .obj sf =>
          if (lookupField sf "recommendations").isSome then
            match (objGetD sf "recommendations" .null).asList with
            | .error e => .error e
            | .ok recs =>
                match strategyRows (objGetD sf "phase" (.str "N/A")) recs with
                | .error e => .error e
                | .ok rows => .ok [.strategyTable rows, .reasoningPanel reasoning]
          else
            .ok [.strategyTable [], .reasoningPanel reasoning]
      | _ => .error .typeError
  | .error e, _ => .error e
  | _, .error e => .error e

/-- `display_classification`; `f"{confidence:.2%}"` needs a numeric value
(Python booleans format as numbers). -/
def display_classification (msg : Json) : Except PyErr (List Effect) :=
  match pyGetD msg "intent" (.str "Unknown"), pyGetD msg "confidence" (.num 0) with
  | .ok intent, .ok confidence =>
      match confidence with
      | .num n => .ok [.classificationPanel intent n]
      | .bool b => .ok [.classificationPanel intent (if b then 1 else 0)]
      | _ => .error .typeError
  | .error e, _ => .error e
  | _, .error e => .error e

/-- One row of the plan table
(`step.get('tool', step.get('name','Unknown'))`, target sliced to 30,
`step.get('purpose', step.get('description','N/A'))`). -/
def planRowOf (plan : Json) (i : Nat) (step : Json) : Except PyErr PlanRow :=
  match step, plan with
  | .obj sf, .obj pf =>
      match sliceTake 30 (objGetD sf "target" (objGetD pf "target" (.str "N/A"))) with
      | .error e => .error e
      | .ok target =>
          .ok ⟨i, objGetD sf "tool" (objGetD sf "name" (.str "Unknown")),
               target,
               objGetD sf "purpose" (objGetD sf "description" (.str "N/A"))⟩
  | _, _ => .error .attributeError

/-- `for i, step in enumerate(steps, 1): table.add_row(...)`. -/
def buildRows (plan : Json) : Nat → List Json → Except PyErr (List PlanRow)
  | _, [] => .ok []
  | i, s :: rest =>
      match planRowOf plan i s with
      | .error e => .error e
      | .ok row =>
          match buildRows plan (i + 1) rest with
          | .error e => .error e
          | .ok rows => .ok (row :: rows)

/-- `display_test_plan`: early return on a falsy `self.test_plan`, then
`steps = plan.get('steps', []) or plan.get('recommendations', [])`,
render the table, and a first-step panel when `steps` is non-empty. -/
def display_test_plan (st : MonitorState) : Except PyErr (List Effect) :=
  match st.test_plan with
  | none => .ok []
  | some plan =>
      if plan.truthy then
        match plan with
        | .obj pf =>
            match (pyOr (objGetD pf "steps" (.arr [])) (objGetD pf "recommendations" (.arr []))).asList with
            | .error e => .error e
            | .ok steps =>
                match buildRows plan 1 steps with
                | .error e => .error e
                | .ok rows =>
                    match steps with
                    | [] => .ok [.planTable rows]
                    | first :: _ =>
                        match first with
                        | .obj ff =>
                            .ok [.planTable rows,
                                 .firstStepPanel (objGetD ff "tool" (.str "Unknown"))
                                   (objGetD ff "purpose" (.str "N/A"))
                                   (objGetD ff "priority" (.str "Not specified"))]
                        | _ => .error .attributeError
        | _ => .error .attributeError
      else
        .ok []

/-- `severity_colors.get(severity, 'white')`; unhashable values
(lists/dicts) raise `TypeError`. -/
def severityColor : Json → Except PyErr String
  | .arr _ => .error .typeError
  | .obj _ => .error .typeError
  | s => .ok (if s.eqStr "critical" then "red"
      else if s.eqStr "high" then "orange"
      else if s.eqStr "medium" then "yellow"
      else if s.eqStr "low" then "blue"
      else if s.eqStr "info" then "cyan"
      else "white")

/-- `display_finding`: severity defaults to `"info"` when absent, the
panel body uses `"Unknown"`/`"N/A"` placeholders, and the title calls
`severity.upper()` — an `AttributeError` when the severity value is not
a string. -/
def display_finding (finding : Json) : Except PyErr (List Effect) :=
  match pyGetD finding "severity" (.str "info") with
  | .error e => .error e
  | .ok severity =>
      match finding with
      | .obj ff =>
          match severityColor severity with
          | .error e => .error e
          | .ok _color =>
              match severity.asString with
              | .error e => .error e
              | .ok sev =>
                  .ok [.findingPanel (pyUpper sev) (objGetD ff "type" (.str "Unknown"))
                        (objGetD ff "description" (.str "N/A"))
                        (objGetD ff "impact" (.str "N/A"))]
      | _ => .error .attributeError

/-- Truthiness of `self.test_plan` (`'Yes' if self.test_plan else 'No'`). -/
def planTruthy : Option Json → Bool
  | none => false
  | some p => p.truthy

/-- `display_summary`: duration is `now - start_time` when `start_time`
was set, else `0`; prints the summary panel and saves the artifact. -/
def display_summary (st : MonitorState) (now : Nat) : List Effect :=
  let duration : Int :=
    match st.start_time with
    | some t => (now : Int) - (t : Int)
    | none => 0
  [.summaryPanel duration st.ai_thoughts.length st.findings.length (planTruthy st.test_plan),
   .saveResults duration]

/-- `handle_message`: dispatch on `msg.get('type', 'unknown')`.  Returns
the (possibly partially) mutated state together with either the emitted
display effects and the Python return value (`Some false` for
`workflow:complete`, `none` i.e. Python `None` otherwise), or the
exception that escaped.  Mutations made before an exception (the
`findings.append` of the `finding` branch) are kept, as in Python. -/
def handle_message (st : MonitorState) (now : Nat) (msg : Json) :
    MonitorState × Except PyErr (List Effect × Option Bool) :=
  match msg with
  | .obj fields =>
      let msg_type := objGetD fields "type" (.str "unknown")
      if msg_type.eqStr "ai:thinking" then
        let r := display_ai_thought st now (objGetD fields "phase" (.str "general"))
                  (objGetD fields "content" (.str ""))
        (r.1, .ok (r.2, none))
      else if msg_type.eqStr "ai:strategy" then
        match display_strategy msg with
        | .ok effs => (st, .ok (effs, none))
        | .error e => (st, .error e)
      else if msg_type.eqStr "ai:classification" then
        match display_classification msg with
        | .ok effs => (st, .ok (effs, none))
        | .error e => (st, .error e)
      else if msg_type.eqStr "test:plan" then
        let st' := { st with test_plan := some (objGetD fields "plan" (.obj [])) }
        match display_test_plan st' with
        | .ok effs => (st', .ok (effs, none))
        | .error e => (st', .error e)
      else if msg_type.eqStr "test:start" then
        let st' := { st with
          current_phase := "Running: " ++ pyStr (objGetD fields "test" (.str "Unknown")) }
        (st', .ok ([.phaseLine st'.current_phase], none))
      else if msg_type.eqStr "finding" then
        let st' := { st with findings := st.findings ++ [msg] }
        match display_finding msg with
        | .ok effs => (st', .ok (effs, none))
        | .error e => (st', .error e)
      else if msg_type.eqStr "workflow:complete" then
        (st, .ok (display_summary st now, some false))
      else
        (st, .ok ([], none))
  | _ => (st, .error .attributeError)

/-- What the channel yields at each turn of the `while True` receive
loop: a receive timeout, a connection close, or a frame that either
parsed (`some msg`) or failed to parse (`none`, `json.loads` raises). -/
inductive NetEvent where
  | timeout
  | closed
  | frame (parsed : Option Json)

/-- How the receive loop ended on the observed input. -/
inductive LoopExit where
  | pending
  | closedNormally
  | errored (e : PyErr)
  deriving Repr, DecidableEq

/-- The `while True` loop of `monitor_websocket` (lines 94-101): a
timeout `continue`s, `ConnectionClosed` `break`s, a parse failure or an
exception from `handle_message` escapes the loop (only those two
exception classes are caught), and — crucially — the value returned by
`handle_message` is discarded. -/
def runLoop (st : MonitorState) (now : Nat) :
    List NetEvent → MonitorState × List Effect × LoopExit
  | [] => (st, [], .pending)
  | .timeout :: rest => runLoop st (now + 1) rest
  | .closed :: _ => (st, [], .closedNormally)
  | .frame none :: _ => (st, [], .errored .jsonDecodeError)
  | .frame (some msg) :: rest =>
      match handle_message st now msg with
      | (st', .error e) => (st', [], .errored e)
      | (st', .ok (effs, _discardedReturn)) =>
          let r := runLoop st' (now + 1) rest
          (r.1, effs ++ r.2.1, r.2.2)

/-- `monitor_websocket`: the whole body sits in a `try/except Exception`
that prints the error, so the task itself never raises. -/
def monitor_websocket (st : MonitorState) (events : List NetEvent) :
    MonitorState × List Effect × Except PyErr Unit :=
  match runLoop st 0 events with
  | (st', effs, .errored e) => (st', effs ++ [.printError e], .ok ())
  | (st', effs, _) => (st', effs, .ok ())

/-- `asyncio.gather(*tasks, return_exceptions=True)`: task exceptions
are returned as values; the gather call itself succeeds. -/
def gather_return_exceptions (dispatchRes monitorRes : Except PyErr Unit) :
    Except PyErr (List (Except PyErr Unit)) :=
  .ok [dispatchRes, monitorRes]

/-- The `try` block of `main` (lines 304-311): gather both tasks, then
print an error line for every result that is an exception. -/
def main_try_block (dispatchRes monitorRes : Except PyErr Unit) :
    Except PyErr (List Effect) :=
  match gather_return_exceptions dispatchRes monitorRes with
  | .error e => .error e
  | .ok results =>
      .ok (results.filterMap fun r =>
        match r with
        | .error e => some (.printError e)
        | .ok _ => none)

/-- `main`'s exception handling (lines 304-317): `KeyboardInterrupt`
prints a notice and falls through (exit 0); any other exception escaping
the `try` block hits `sys.exit(1)`; a normal return exits 0. -/
def main_run (dispatchRes monitorRes : Except PyErr Unit) (interrupted : Bool) :
    List Effect × Nat :=
  if interrupted then
    ([.printLine "Monitoring stopped by user"], 0)
  else
    match main_try_block dispatchRes monitorRes with
    | .ok effs => (effs, 0)
    | .error e => ([.printError e], 1)

/-- The `__main__` guard (lines 319-324): a `KeyboardInterrupt` escaping
`asyncio.run(main())` prints a notice and calls `sys.exit(0)`. -/
def toplevel_interrupt_handler : List Effect × Nat :=
  ([.printLine "Exiting..."], 0)

/-- What the session has emitted when an operator interrupt arrives:
the effects produced so far, plus `main`'s interrupt notice; neither
interrupt handler calls `display_summary`. -/
def session_on_interrupt (effsSoFar : List Effect) : List Effect × Nat :=
  (effsSoFar ++ (main_run (.ok ()) (.ok ()) true).1, (main_run (.ok ()) (.ok ()) true).2)

/-- Is an effect the persistence of the summary artifact (the
`json.dump` of `display_summary`)? -/
def isFinalize : Effect → Bool
  | .saveResults _ => true
  | _ => false

/-- Number of finalize (artifact-write) calls among the emitted effects. -/
def countFinalize (effs : List Effect) : Nat := (effs.filter isFinalize).length

/-- Replaying a list of already-parsed messages through
`handle_message`, threading the state (the classifier replay). -/
def replay (st : MonitorState) (now : Nat) : List Json → MonitorState
  | [] => st
  | m :: ms => replay (handle_message st now m).1 (now + 1) ms

/-- Every message of the list is processed without an exception when
replayed from `st` (the "well-formed sequence" condition). -/
def replayOk (st : MonitorState) (now : Nat) : List Json → Bool
  | [] => true
  | m :: ms =>
      match handle_message st now m with
      | (st', .ok _) => replayOk st' (now + 1) ms
      | (_, .error _) => false

/-- The discriminator a message carries (`msg.get('type', 'unknown')`);
a non-dict message has none. -/
def msgTypeOf : Json → Option Json
  | .obj fields => some (objGetD fields "type" (.str "unknown"))
  | _ => none

/-- Does the message dispatch to the `finding` branch? -/
def isFindingMsg (msg : Json) : Bool :=
  match msgTypeOf msg with
  | some t => t.eqStr "finding"
  | none => false

/-- Does the message dispatch to the `ai:thinking` branch? -/
def isThinkingMsg (msg : Json) : Bool :=
  match msgTypeOf msg with
  | some t => t.eqStr "ai:thinking"
  | none => false

/-- Does the message dispatch to the `test:plan` branch? -/
def isPlanMsg (msg : Json) : Bool :=
  match msgTypeOf msg with
  | some t => t.eqStr "test:plan"
  | none => false

/-- The thought-log entry an `ai:thinking` message appends at time `now`. -/
def thoughtOf (now : Nat) : Json → ThoughtEntry
  | .obj fields => ⟨now, objGetD fields "phase" (.str "general"),
                    objGetD fields "content" (.str "")⟩
  | _ => ⟨now, .null, .null⟩

/-- The payload a `test:plan` message stores (`msg.get('plan', {})`). -/
def planPayloadOf : Json → Json
  | .obj fields => objGetD fields "plan" (.obj [])
  | _ => .null

/-- Does the message dispatch to the `test:start` branch? -/
def isStartMsg (msg : Json) : Bool :=
  match msgTypeOf msg with
  | some t => t.eqStr "test:start"
  | none => false

/-- The phase label a `test:start` message installs. -/
def startPhaseOf : Json → String
  | .obj fields => "Running: " ++ pyStr (objGetD fields "test" (.str "Unknown"))
  | _ => ""

/-- The `(phase, content)` pair an `ai:thinking` message logs. -/
def thoughtPayload : Json → Json × Json
  | .obj fields => (objGetD fields "phase" (.str "general"),
                    objGetD fields "content" (.str ""))
  | _ => (.null, .null)

/-- Sample events used in concrete instantiations. -/
def sampleComplete : Json := .obj [("type", .str "workflow:complete")]

def sampleFinding : Json :=
  .obj [("type", .str "finding"), ("severity", .str "high"),
        ("description", .str "SQL injection")]

def sampleFinding2 : Json :=
  .obj [("type", .str "finding"), ("severity", .str "low"),
        ("description", .str "Open redirect")]

def sampleThinking : Json :=
  .obj [("type", .str "ai:thinking"), ("phase", .str "recon"),
        ("content", .str "enumerate subdomains")]

/-- A value that equals one string literal equals no other. -/
theorem Json.eqStr_false_of_ne {t : Json} {a : String} (h : t.eqStr a = true)
    {b : String} (hab : a ≠ b) : t.eqStr b = false := by
  cases t with
  | str s =>
      simp only [Json.eqStr, beq_iff_eq] at h
      subst h
      simp only [Json.eqStr]
      exact beq_eq_false_iff_ne.mpr hab
  | null => rfl
  | bool x => rfl
  | num x => rfl
  | arr x => rfl
  | obj x => rfl

/-- How `handle_message` transforms the monitor state, in one statement:
an `ai:thinking` message appends one thought entry, a `test:plan`
message overwrites `test_plan` wholesale, a `test:start` message
replaces the phase label, a `finding` message appends the message to
`findings`, and every other message (including ones whose display
raises) leaves the state unchanged. -/
theorem handle_message_state (st : MonitorState) (now : Nat) (msg : Json) :
    (handle_message st now msg).1
      = { ai_thoughts := st.ai_thoughts
            ++ (if isThinkingMsg msg then [thoughtOf now msg] else [])
          test_plan := if isPlanMsg msg then some (planPayloadOf msg) else st.test_plan
          current_phase := if isStartMsg msg then startPhaseOf msg else st.current_phase
          findings := st.findings ++ (if isFindingMsg msg then [msg] else [])
          start_time := st.start_time } := by
  cases msg with
  | obj fields =>
      simp only [handle_message, isThinkingMsg, isPlanMsg, isStartMsg, isFindingMsg,
        msgTypeOf, thoughtOf, planPayloadOf, startPhaseOf]
      by_cases h1 : (objGetD fields "type" (Json.str "unknown")).eqStr "ai:thinking" = true
      · have f1 := Json.eqStr_false_of_ne h1 (show "ai:thinking" ≠ "test:plan" by decide)
        have f2 := Json.eqStr_false_of_ne h1 (show "ai:thinking" ≠ "test:start" by decide)
        have f3 := Json.eqStr_false_of_ne h1 (show "ai:thinking" ≠ "finding" by decide)
        simp [display_ai_thought, h1, f1, f2, f3]
      by_cases h2 : (objGetD fields "type" (Json.str "unknown")).eqStr "ai:strategy" = true
      · have f1 := Json.eqStr_false_of_ne h2 (show "ai:strategy" ≠ "test:plan" by decide)
        have f2 := Json.eqStr_false_of_ne h2 (show "ai:strategy" ≠ "test:start" by decide)
        have f3 := Json.eqStr_false_of_ne h2 (show "ai:strategy" ≠ "finding" by decide)
        cases display_strategy (Json.obj fields) <;> simp [h1, h2, f1, f2, f3]
      by_cases h3 : (objGetD fields "type" (Json.str "unknown")).eqStr "ai:classification" = true
      · have f1 := Json.eqStr_false_of_ne h3 (show "ai:classification" ≠ "test:plan" by decide)
        have f2 := Json.eqStr_false_of_ne h3 (show "ai:classification" ≠ "test:start" by decide)
        have f3 := Json.eqStr_false_of_ne h3 (show "ai:classification" ≠ "finding" by decide)
        cases display_classification (Json.obj fields) <;> simp [h1, h2, h3, f1, f2, f3]
      by_cases h4 : (objGetD fields "type" (Json.str "unknown")).eqStr "test:plan" = true
      · have f1 := Json.eqStr_false_of_ne h4 (show "test:plan" ≠ "test:start" by decide)
        have f2 := Json.eqStr_false_of_ne h4 (show "test:plan" ≠ "finding" by decide)
        cases display_test_plan { st with test_plan := some (objGetD fields "plan" (.obj [])) } <;>
          simp [h1, h2, h3, h4, f1, f2]
      by_cases h5 : (objGetD fields "type" (Json.str "unknown")).eqStr "test:start" = true
      · have f1 := Json.eqStr_false_of_ne h5 (show "test:start" ≠ "finding" by decide)
        simp [h1, h2, h3, h4, h5, f1]
      by_cases h6 : (objGetD fields "type" (Json.str "unknown")).eqStr "finding" = true
      · cases display_finding (Json.obj fields) <;> simp [h1, h2, h3, h4, h5, h6]

      by_cases h7 : (objGetD fields "type" (Json.str "unknown")).eqStr "workflow:complete" = true
      · simp [h1, h2, h3, h4, h5, h6, h7]
      · simp [h1, h2, h3, h4, h5, h6, h7]
  | null => simp [handle_message, isThinkingMsg, isPlanMsg, isStartMsg, isFindingMsg, msgTypeOf]
  | bool b => simp [handle_message, isThinkingMsg, isPlanMsg, isStartMsg, isFindingMsg, msgTypeOf]
  | num n => simp [handle_message, isThinkingMsg, isPlanMsg, isStartMsg, isFindingMsg, msgTypeOf]
  | str s => simp [handle_message, isThinkingMsg, isPlanMsg, isStartMsg, isFindingMsg, msgTypeOf]
  | arr xs => simp [handle_message, isThinkingMsg, isPlanMsg, isStartMsg, isFindingMsg, msgTypeOf]

/-- The thought entries a message list appends when replayed from
time `now` (each step advances the clock by one tick). -/
def thoughtsOf (now : Nat) : List Json → List ThoughtEntry
  | [] => []
  | m :: ms => (if isThinkingMsg m then [thoughtOf now m] else []) ++ thoughtsOf (now + 1) ms

theorem replay_findings (msgs : List Json) :
    ∀ (st : MonitorState) (now : Nat),
      (replay st now msgs).findings = st.findings ++ msgs.filter isFindingMsg := by
  induction msgs with
  | nil => intro st now; simp [replay]
  | cons m ms ih =>
      intro st now
      rw [replay, ih, handle_message_state]
      by_cases hf : isFindingMsg m = true <;> simp [hf, List.filter_cons]

theorem replay_thoughts (msgs : List Json) :
    ∀ (st : MonitorState) (now : Nat),
      (replay st now msgs).ai_thoughts = st.ai_thoughts ++ thoughtsOf now msgs := by
  induction msgs with
  | nil => intro st now; simp [replay, thoughtsOf]
  | cons m ms ih =>
      intro st now
      rw [replay, ih, handle_message_state, thoughtsOf]
      by_cases ht : isThinkingMsg m = true <;> simp [ht]

theorem replay_plan (msgs : List Json) :
    ∀ (st : MonitorState) (now : Nat),
      (replay st now msgs).test_plan
        = match (msgs.filter isPlanMsg).getLast? with
          | some m => some (planPayloadOf m)
          | none => st.test_plan := by
  induction msgs with
  | nil => intro st now; simp [replay]
  | cons m ms ih =>
      intro st now
      rw [replay, ih]
      by_cases hp : isPlanMsg m = true
      · simp only [List.filter_cons, hp, if_pos]
        cases hfe : ms.filter isPlanMsg with
        | nil => simp [handle_message_state, hp]
        | cons b l =>
            rw [List.getLast?_cons_cons]
            rw [hfe] at ih
            cases hgl : (b :: l).getLast? with
            | none => simp [List.getLast?] at hgl
            | some k => simp [hgl]
      · simp [List.filter_cons, hp, handle_message_state]

theorem thoughtsOf_length (msgs : List Json) :
    ∀ now : Nat, (thoughtsOf now msgs).length = (msgs.filter isThinkingMsg).length := by
  induction msgs with
  | nil => intro now; simp [thoughtsOf]
  | cons m ms ih =>
      intro now
      rw [thoughtsOf]
      by_cases ht : isThinkingMsg m = true <;> simp [ht, List.filter_cons, ih]

theorem thoughtOf_payload (now : Nat) (m : Json) :
    ((thoughtOf now m).phase, (thoughtOf now m).thought) = thoughtPayload m := by
  cases m <;> rfl

theorem thoughtsOf_payload (msgs : List Json) :
    ∀ now : Nat,
      (thoughtsOf now msgs).map (fun e => (e.phase, e.thought))
        = (msgs.filter isThinkingMsg).map thoughtPayload := by
  induction msgs with
  | nil => intro now; simp [thoughtsOf]
  | cons m ms ih =>
      intro now
      rw [thoughtsOf]
      by_cases ht : isThinkingMsg m = true <;>
        simp [ht, List.filter_cons, ih, thoughtOf_payload]

/-- A finding event with a `severity` key whose value is not a string. -/
def badSevFinding : Json :=
  .obj [("type", .str "finding"), ("severity", .null), ("description", .str "leak")]

/-- A finding event with every optional field absent. -/
def bareFinding : Json := .obj [("type", .str "finding"), ("description", .str "d")]

/-- C1: a `workflow:complete` event does NOT stop the event sequence and
does NOT make finalize a once-per-session action: `handle_message`
returns `False` as a stop signal, but `monitor_websocket` discards that
value, so two `workflow:complete` frames save the artifact twice, and a
`finding` frame arriving after `workflow:complete` is still processed.
No `terminated` flag exists in the state at all. -/
theorem workflow_complete_not_single_finalize :
    countFinalize (runLoop initState 0
        [.frame (some sampleComplete), .frame (some sampleComplete)]).2.1 = 2
    ∧ (runLoop initState 0
        [.frame (some sampleComplete), .frame (some sampleFinding)]).1.findings
        = [sampleFinding]
    ∧ (handle_message initState 0 sampleComplete).2
        = .ok (display_summary initState 0, some false) :=
  ⟨rfl, rfl, rfl⟩

/-- C2 counterexample: a malformed frame between two valid `finding`
frames terminates the receive loop with the `json.loads` exception, so
the second finding is dropped — processing does not continue. -/
theorem malformed_frame_cex :
    (runLoop initState 0
        [.frame (some sampleFinding), .frame none, .frame (some sampleFinding2)]).1.findings
      = [sampleFinding]
    ∧ (runLoop initState 0
        [.frame (some sampleFinding), .frame none, .frame (some sampleFinding2)]).2.2
      = .errored .jsonDecodeError :=
  ⟨rfl, rfl⟩

/-- C2 (amended): a frame that fails to parse raises out of the receive
loop (only timeouts and connection closes are caught there): whatever
prefix was processed cleanly is kept, the loop exits with the decode
error, and no later frame is processed. -/
theorem malformed_frame_aborts_stream (ys xs : List NetEvent)
    (st : MonitorState) (now : Nat)
    (h : (runLoop st now xs).2.2 = .pending) :
    runLoop st now (xs ++ .frame none :: ys)
      = ((runLoop st now xs).1, (runLoop st now xs).2.1, .errored .jsonDecodeError) := by
  revert h
  induction xs generalizing st now with
  | nil => intro _; simp [runLoop]
  | cons x rest ih =>
      intro h
      cases x with
      | timeout =>
          simp only [List.cons_append, runLoop] at h ⊢
          exact ih st (now + 1) h
      | closed => simp [runLoop] at h
      | frame p =>
          cases p with
          | none => simp [runLoop] at h
          | some m =>
              simp only [List.cons_append, runLoop] at h ⊢
              rcases hm : handle_message st now m with ⟨st', r⟩
              rw [hm] at h
              rcases r with e | ⟨effs, ret⟩
              · simp at h
              · dsimp only at h ⊢
                have hih := ih st' (now + 1) h
                simp only [List.append_eq] at hih ⊢
                rw [hih]

/-- C2 (amended) witness: one clean finding frame, then a malformed
frame, then another finding frame. -/
theorem malformed_frame_aborts_stream_witness :
    (runLoop initState 0 [NetEvent.frame (some sampleFinding)]).2.2 = .pending
    ∧ runLoop initState 0
        ([NetEvent.frame (some sampleFinding)] ++ .frame none :: [.frame (some sampleFinding2)])
      = ((runLoop initState 0 [NetEvent.frame (some sampleFinding)]).1,
         (runLoop initState 0 [NetEvent.frame (some sampleFinding)]).2.1,
         .errored .jsonDecodeError) :=
  ⟨rfl, malformed_frame_aborts_stream [.frame (some sampleFinding2)]
    [.frame (some sampleFinding)] initState 0 rfl⟩

/-- C3 counterexample: an operator interrupt before any event arrives
produces no summary artifact at all — neither interrupt handler calls
`display_summary`, so no `saveResults` effect is emitted. -/
theorem interrupt_no_artifact_cex :
    countFinalize (session_on_interrupt []).1 = 0
    ∧ (session_on_interrupt []).2 = 0 :=
  ⟨rfl, rfl⟩

/-- C3 (amended): operator cancellation prints a notice and exits with
code 0 but never invokes finalization: the interrupt handlers of `main`
and of the `__main__` guard add no artifact write to whatever effects
had accumulated. -/
theorem interrupt_produces_no_finalize (effsSoFar : List Effect) :
    countFinalize (session_on_interrupt effsSoFar).1 = countFinalize effsSoFar
    ∧ (session_on_interrupt effsSoFar).2 = 0
    ∧ countFinalize toplevel_interrupt_handler.1 = 0
    ∧ toplevel_interrupt_handler.2 = 0 := by
  refine ⟨?_, rfl, rfl, rfl⟩
  simp [session_on_interrupt, main_run, countFinalize, isFinalize, List.filter_append]

/-- C6: the summary duration is `0` when `start_time` was never set, and
`now - start_time` when it was. -/
theorem summary_duration_cases (st : MonitorState) (now : Nat) :
    (st.start_time = none →
       display_summary st now
         = [.summaryPanel 0 st.ai_thoughts.length st.findings.length (planTruthy st.test_plan),
            .saveResults 0])
    ∧ ∀ t : Nat, st.start_time = some t →
        display_summary st now
          = [.summaryPanel ((now : Int) - (t : Int)) st.ai_thoughts.length st.findings.length
               (planTruthy st.test_plan),
             .saveResults ((now : Int) - (t : Int))] := by
  constructor
  · intro h; simp [display_summary, h]
  · intro t h; simp [display_summary, h]

/-- C6 witness: the fresh state at time 7, and a state dispatched at
time 3 summarised at time 7. -/
theorem summary_duration_cases_witness :
    initState.start_time = none
    ∧ display_summary initState 7 = [.summaryPanel 0 0 0 false, .saveResults 0]
    ∧ ({ initState with start_time := some 3 } : MonitorState).start_time = some 3
    ∧ display_summary { initState with start_time := some 3 } 7
        = [.summaryPanel 4 0 0 false, .saveResults 4] :=
  ⟨rfl, (summary_duration_cases initState 7).1 rfl, rfl,
   (summary_duration_cases { initState with start_time := some 3 } 7).2 3 rfl⟩

/-- C8 counterexample: a dispatcher that fails before any listening
(its task result is an exception) still yields exit code 0, because
`gather(..., return_exceptions=True)` returns the exception as a value
and `main` only prints it. -/
theorem dispatcher_failure_exits_zero_cex :
    (main_run (.error .typeError) (.ok ()) false).2 = 0 := rfl

/-- C8 (amended): the process exits with code 0 on every combination of
task outcomes — normal completion, cancellation, and dispatcher failure
alike; the `sys.exit(1)` branch is unreachable for task exceptions, and
the monitor task itself never raises. -/
theorem process_exit_code_zero (dispatchRes monitorRes : Except PyErr Unit)
    (interrupted : Bool) :
    (main_run dispatchRes monitorRes interrupted).2 = 0
    ∧ ∀ (st : MonitorState) (events : List NetEvent),
        (monitor_websocket st events).2.2 = .ok () := by
  constructor
  · cases interrupted <;> simp [main_run, main_try_block, gather_return_exceptions]
  · intro st events
    rcases hx : runLoop st 0 events with ⟨st', effs, ex⟩
    cases ex <;> simp [monitor_websocket, hx]

/-- C10: a `finding` event whose `severity` is present but not a string
(here `null`) raises `AttributeError` at `severity.upper()`; the
exception escapes `handle_message` (the finding itself was already
appended), aborts the whole receive loop before any later frame, while
a finding with the field simply absent renders with placeholder
defaults (`INFO`, `N/A`). -/
theorem finding_nonstring_severity_crashes :
    (handle_message initState 0 badSevFinding).2 = .error .attributeError
    ∧ (handle_message initState 0 badSevFinding).1.findings = [badSevFinding]
    ∧ (runLoop initState 0 [.frame (some badSevFinding), .frame (some sampleFinding2)]).2.2
        = .errored .attributeError
    ∧ (runLoop initState 0 [.frame (some badSevFinding), .frame (some sampleFinding2)]).1.findings
        = [badSevFinding]
    ∧ (handle_message initState 0 bareFinding).2
        = .ok ([.findingPanel "INFO" (.str "finding") (.str "d") (.str "N/A")], none) :=
  ⟨rfl, rfl, rfl, rfl, rfl⟩

/-- C4: replaying a well-formed sequence, the thought log and the
findings list grow to exactly the number of `ai:thinking` and `finding`
events, their entries in arrival order. -/
theorem classifier_replay_counts (msgs : List Json)
    (h : replayOk initState 0 msgs = true) :
    (replay initState 0 msgs).ai_thoughts.length = (msgs.filter isThinkingMsg).length
    ∧ (replay initState 0 msgs).findings.length = (msgs.filter isFindingMsg).length
    ∧ (replay initState 0 msgs).findings = msgs.filter isFindingMsg
    ∧ (replay initState 0 msgs).ai_thoughts.map (fun e => (e.phase, e.thought))
        = (msgs.filter isThinkingMsg).map thoughtPayload := by
  refine ⟨?_, ?_, ?_, ?_⟩
  · rw [replay_thoughts]; simp [initState, thoughtsOf_length]
  · rw [replay_findings]; simp [initState]
  · rw [replay_findings]; simp [initState]
  · rw [replay_thoughts]; simp [initState, thoughtsOf_payload]

/-- C4 witness: one thinking event, one finding event, one completion. -/
theorem classifier_replay_counts_witness :
    (replay initState 0 [sampleThinking, sampleFinding, sampleComplete]).ai_thoughts.length
      = ([sampleThinking, sampleFinding, sampleComplete].filter isThinkingMsg).length
    ∧ (replay initState 0 [sampleThinking, sampleFinding, sampleComplete]).findings.length
      = ([sampleThinking, sampleFinding, sampleComplete].filter isFindingMsg).length
    ∧ (replay initState 0 [sampleThinking, sampleFinding, sampleComplete]).findings
      = [sampleThinking, sampleFinding, sampleComplete].filter isFindingMsg
    ∧ (replay initState 0 [sampleThinking, sampleFinding, sampleComplete]).ai_thoughts.map
        (fun e => (e.phase, e.thought))
      = ([sampleThinking, sampleFinding, sampleComplete].filter isThinkingMsg).map thoughtPayload :=
  classifier_replay_counts [sampleThinking, sampleFinding, sampleComplete] rfl

/-- A `test:plan` event carrying one plan payload. -/
def samplePlanA : Json :=
  .obj [("type", .str "test:plan"), ("plan", .obj [("target", .str "a.example")])]

/-- A second `test:plan` event carrying a different payload. -/
def samplePlanB : Json :=
  .obj [("type", .str "test:plan"),
        ("plan", .obj [("target", .str "b.example"),
                       ("steps", .arr [.obj [("tool", .str "nmap"),
                                             ("purpose", .str "port scan")]])])]

/-- C5: after replay, `test_plan` holds exactly the payload of the last
`test:plan` event — earlier plan events are overwritten wholesale. -/
theorem plan_last_write_wins (msgs : List Json) (m : Json)
    (h : (msgs.filter isPlanMsg).getLast? = some m) :
    (replay initState 0 msgs).test_plan = some (planPayloadOf m) := by
  rw [replay_plan, h]

/-- C5 witness: two plan events; the second one wins. -/
theorem plan_last_write_wins_witness :
    ([samplePlanA, samplePlanB].filter isPlanMsg).getLast? = some samplePlanB
    ∧ (replay initState 0 [samplePlanA, samplePlanB]).test_plan
        = some (planPayloadOf samplePlanB) :=
  ⟨rfl, plan_last_write_wins [samplePlanA, samplePlanB] samplePlanB rfl⟩

/-- `steps = plan.get('steps', []) or plan.get('recommendations', [])`
(line 199), exposed on its own for the rendering theorem. -/
def chosenSteps (plan : Json) : Except PyErr Json :=
  match pyGetD plan "steps" (.arr []), pyGetD plan "recommendations" (.arr []) with
  | .ok s, .ok r => .ok (pyOr s r)
  | .error e, _ => .error e
  | _, .error e => .error e

theorem buildRows_length (plan : Json) :
    ∀ (i : Nat) (steps : List Json) (rows : List PlanRow),
      buildRows plan i steps = .ok rows → rows.length = steps.length := by
  intro i steps
  induction steps generalizing i with
  | nil =>
      intro rows h
      simp only [buildRows, Except.ok.injEq] at h
      simp [← h]
  | cons s rest ih =>
      intro rows h
      simp only [buildRows] at h
      cases hr : planRowOf plan i s with
      | error e => rw [hr] at h; simp at h
      | ok row =>
          rw [hr] at h
          cases hb : buildRows plan (i + 1) rest with
          | error e => rw [hb] at h; simp at h
          | ok rows' =>
              rw [hb] at h
              simp only [Except.ok.injEq] at h
              simp [← h, ih (i + 1) rows' hb]

/-- The single recommendation used in the C7 instances. -/
def recStep7 : Json :=
  .obj [("tool", .str "nikto"), ("purpose", .str "scan"), ("priority", .str "high")]

/-- A plan payload whose `steps` key is present but empty, with a
non-empty `recommendations` list. -/
def planEx7 : Json :=
  .obj [("steps", .arr []), ("recommendations", .arr [recStep7])]

set_option maxRecDepth 8192 in
/-- C7 counterexample: in `planEx7` the `steps` field IS present (the
`get` with a sentinel default returns the stored empty list), yet the
rendered table takes its single row from `recommendations` and even
emits the first-step panel — because `or` falls through on an empty
(falsy) `steps` list, not just on an absent one. -/
theorem plan_steps_present_ignored_cex :
    pyGetD planEx7 "steps" (.str "absent") = .ok (.arr [])
    ∧ display_test_plan { initState with test_plan := some planEx7 }
        = .ok [.planTable [⟨1, .str "nikto", .str "N/A", .str "scan"⟩],
               .firstStepPanel (.str "nikto") (.str "scan") (.str "high")] :=
  ⟨rfl, rfl⟩

/-- C7 (amended): the step table's rows come from `plan.steps` when that
value is truthy (present and non-empty) and from `plan.recommendations`
otherwise; when the chosen list is empty an empty table is rendered
without error; and the first-step panel is emitted exactly when the
chosen list is non-empty. -/
theorem plan_table_rendering (st : MonitorState) (p : Json) (l : List Json)
    (hp : st.test_plan = some p) (ht : p.truthy = true)
    (hs : chosenSteps p = .ok (.arr l)) :
    (l = [] → display_test_plan st = .ok [.planTable []])
    ∧ ∀ effs : List Effect, display_test_plan st = .ok effs →
        (∃ rows : List PlanRow, Effect.planTable rows ∈ effs ∧ rows.length = l.length)
        ∧ ((∃ tl pu pr, Effect.firstStepPanel tl pu pr ∈ effs) ↔ l ≠ []) := by
  cases p with
  | null => simp [chosenSteps, pyGetD] at hs
  | bool b => simp [chosenSteps, pyGetD] at hs
  | num n => simp [chosenSteps, pyGetD] at hs
  | str s => simp [chosenSteps, pyGetD] at hs
  | arr xs => simp [chosenSteps, pyGetD] at hs
  | obj pf =>
      simp only [chosenSteps, pyGetD, Except.ok.injEq] at hs
      constructor
      · intro hl
        subst hl
        simp [display_test_plan, hp, ht, hs, Json.asList, buildRows]
      · intro effs heq
        simp only [display_test_plan, hp, ht, if_true, hs, Json.asList] at heq
        cases hbr : buildRows (.obj pf) 1 l with
        | error e => rw [hbr] at heq; simp at heq
        | ok rows =>
            rw [hbr] at heq
            have hlen := buildRows_length (.obj pf) 1 l rows hbr
            cases l with
            | nil =>
                simp only [Except.ok.injEq] at heq
                subst heq
                refine ⟨⟨rows, by simp, hlen⟩, ?_⟩
                simp
            | cons first restl =>
                cases first with
                | obj ff =>
                    simp only [Except.ok.injEq] at heq
                    subst heq
                    refine ⟨⟨rows, by simp, hlen⟩, ?_⟩
                    simp
                | null => simp [buildRows, planRowOf] at hbr
                | bool b => simp [buildRows, planRowOf] at hbr
                | num n => simp [buildRows, planRowOf] at hbr
                | str s => simp [buildRows, planRowOf] at hbr
                | arr xs => simp [buildRows, planRowOf] at hbr

set_option maxRecDepth 8192 in
/-- C7 (amended) witness: `planEx7` with its chosen (recommendation)
list of length one. -/
theorem plan_table_rendering_witness :
    chosenSteps planEx7 = .ok (.arr [recStep7])
    ∧ ((∃ rows : List PlanRow,
          Effect.planTable rows ∈
            [Effect.planTable [⟨1, .str "nikto", .str "N/A", .str "scan"⟩],
             Effect.firstStepPanel (.str "nikto") (.str "scan") (.str "high")]
          ∧ rows.length = ([recStep7] : List Json).length)
       ∧ ((∃ tl pu pr, Effect.firstStepPanel tl pu pr ∈
            [Effect.planTable [⟨1, .str "nikto", .str "N/A", .str "scan"⟩],
             Effect.firstStepPanel (.str "nikto") (.str "scan") (.str "high")])
          ↔ ([recStep7] : List Json) ≠ [])) :=
  ⟨rfl,
   (plan_table_rendering { initState with test_plan := some planEx7 } planEx7 [recStep7]
      rfl rfl rfl).2 _ rfl⟩

/-- The seven discriminators `handle_message` recognizes. -/
def recognizedDiscriminators : List String :=
  ["ai:thinking", "ai:strategy", "ai:classification", "test:plan",
   "test:start", "finding", "workflow:complete"]

/-- C9: an event (a dict) whose discriminator matches none of the
recognized cases falls through the whole dispatch chain: the state is
untouched, no display is emitted, and no exception is raised. -/
theorem unknown_event_noop (st : MonitorState) (now : Nat)
    (fields : List (String × Json))
    (h : ∀ s ∈ recognizedDiscriminators,
          (objGetD fields "type" (.str "unknown")).eqStr s = false) :
    handle_message st now (.obj fields) = (st, .ok ([], none)) := by
  have h1 := h "ai:thinking" (by simp [recognizedDiscriminators])
  have h2 := h "ai:strategy" (by simp [recognizedDiscriminators])
  have h3 := h "ai:classification" (by simp [recognizedDiscriminators])
  have h4 := h "test:plan" (by simp [recognizedDiscriminators])
  have h5 := h "test:start" (by simp [recognizedDiscriminators])
  have h6 := h "finding" (by simp [recognizedDiscriminators])
  have h7 := h "workflow:complete" (by simp [recognizedDiscriminators])
  simp [handle_message, h1, h2, h3, h4, h5, h6, h7]

/-- C9 witness: an event of kind `progress` (also exercising a
discriminator that is not even a string via the theorem's generality
is unnecessary; one concrete unknown kind suffices). -/
theorem unknown_event_noop_witness :
    (∀ s ∈ recognizedDiscriminators,
        (objGetD [("type", Json.str "progress")] "type" (.str "unknown")).eqStr s = false)
    ∧ handle_message initState 3 (.obj [("type", .str "progress")])
        = (initState, .ok ([], none)) :=
  ⟨by decide, unknown_event_noop initState 3 [("type", .str "progress")] (by decide)⟩

end Riverbanking
